import Mathlib

/-!
Shallow embedding of the job lifecycle core of the qiskit-quantinuum-provider
repository, covering:

* `QuantinuumJob` (src/qiskit/providers/quantinuum/quantinuumjob.py):
  `submit`, `result`, `status`, `_get_status` (short-circuit, websocket and
  polling transports) and `_process_results` (the result codec);
* `ApiJobStatus` (src/qiskit/providers/honeywell/apiconstants.py);
* `Backend.status` (src/qiskit/providers/honeywell/api/rest/backend.py).

Python exceptions are modelled with an explicit error type carried in
`Except`; machine interaction (the REST client and the websocket) is passed
in as oracles.  Numeric delays are exact rationals.
-/

deriving instance DecidableEq for Except

namespace QProvider

/-- Python exceptions that the modelled code paths can raise.  `jobError`
stands for `qiskit.providers.JobError`; the others are builtin Python
exception classes. -/
inductive PyError where
  | keyError (k : String)
  | indexError
  | attributeError (a : String)
  | valueError (s : String)
  | nameError (n : String)
  | jobError (msg : String)
  deriving DecidableEq, Repr

/-- A printable message for an exception, used where the source wraps an
arbitrary exception `err` into `JobError(str(err))`. -/
def PyError.toMessage : PyError → String
  | .keyError k => "KeyError: " ++ k
  | .indexError => "IndexError: list index out of range"
  | .attributeError a => "AttributeError: " ++ a
  | .valueError s => "ValueError: " ++ s
  | .nameError n => "NameError: " ++ n
  | .jobError m => m

/-- `ApiJobStatus` from apiconstants.py: the strings used by the remote API. -/
inductive ApiJobStatus where
  | queued
  | running
  | completed
  | canceled
  | failed
  deriving DecidableEq, Repr

/-- Construction `ApiJobStatus(s)` from a string; `none` models the
`ValueError` Python raises for a string that is not a member value. -/
def ApiJobStatus.ofString : String → Option ApiJobStatus
  | "queued" => some .queued
  | "running" => some .running
  | "completed" => some .completed
  | "canceled" => some .canceled
  | "failed" => some .failed
  | _ => none

/-- `API_JOB_FINAL_STATES` from apiconstants.py. -/
def API_JOB_FINAL_STATES : List ApiJobStatus := [.completed, .canceled, .failed]

/-- The `qiskit.providers.jobstatus.JobStatus` enum (the provider's job-level
status vocabulary).  `INITIALIZING` is abbreviated `initial`. -/
inductive JobStatus where
  | initial
  | queued
  | validating
  | running
  | cancelled
  | done
  | error
  deriving DecidableEq, Repr

/-- `qiskit.providers.jobstatus.JOB_FINAL_STATES`. -/
def JOB_FINAL_STATES : List JobStatus := [.done, .cancelled, .error]

/-- The value held in `self._status`.  The source stores either a `JobStatus`
member or, after a successful `submit`, the raw value of
`submit_info.get('status')` (a string, or `None` when the key is absent). -/
inductive StoredStatus where
  | js (s : JobStatus)
  | raw (s : Option String)
  deriving DecidableEq, Repr

/-- The Python test `self._status in JOB_FINAL_STATES`: true only for a
`JobStatus` member among the final states (a raw string or `None` never
equals an enum member). -/
def StoredStatus.isFinal : StoredStatus → Bool
  | .js s => JOB_FINAL_STATES.contains s
  | .raw _ => false

/-- The JSON payload returned by `api.job_status(job_id)` (and by the
websocket).  `status` and `results` are `Option` because subscripting a
missing key raises `KeyError` while `.get` supplies a default; `results`
holds `res.values()` in insertion order, one list of per-shot bit values per
classical register; `websocket` records whether the `'websocket'` key is
present (its token contents are only ever passed back to the transport). -/
structure JobPayload where
  status : Option String
  results : Option (List (List String))
  websocket : Bool
  deriving DecidableEq, Repr

/-- The statuses that terminate the polling loop, from the source line
`while api_response['status'] not in ['failed', 'completed', 'canceled']`. -/
def pollTerminal : List String := ["failed", "completed", "canceled"]

/-- Python `min(a, b)` on exact rationals (spelled out so that it reduces in
the kernel). -/
def ratMin (a b : ℚ) : ℚ := if a ≤ b then a else b

/-- One iteration structure of the polling loop of `_get_status` (lines
278-290).  `oracle k` is the payload of the k-th in-loop
`self._api.job_status(job_id)` call; `waits` accumulates the `sleep`
durations in reverse.  `fuel` only bounds the recursion; it is chosen large
enough at the call site that the loop always exits through one of the
source's own exits. -/
def pollLoopGo (oracle : Nat → JobPayload) :
    Nat → Nat → ℚ → ℚ → JobPayload → List ℚ →
    Except PyError (JobPayload × List ℚ)
  | 0, _, _, _, _, _ => .error (.jobError "poll fuel exhausted")
  | fuel + 1, k, residual, requestDelay, cur, waits =>
    match cur.status with
    | none => .error (.keyError "status")
    | some s =>
      if pollTerminal.contains s then
        .ok (cur, waits.reverse)
      else if requestDelay < 0 then
        .error (.valueError "sleep length must be non-negative")
      else
        let waits1 := requestDelay :: waits
        let cur1 := oracle k
        let residual1 := residual - requestDelay
        if residual1 ≤ 0 then
          .ok (cur1, waits1.reverse)
        else
          pollLoopGo oracle fuel (k + 1) residual1
            (ratMin (ratMin (requestDelay * (3 / 2)) 10) residual1) cur1 waits1

/-- The polling branch of `_get_status`, starting from the initial response
`r0` (the answer of the query made before entering the loop).  Mirrors:
`residual_delay = timeout/1000` (source comment: convert us -> s),
`request_delay = min(1.0, residual_delay)`, then the loop. -/
def pollFrom (oracle : Nat → JobPayload) (timeout : ℚ) (r0 : JobPayload) :
    Except PyError (JobPayload × List ℚ) :=
  let residual := timeout / 1000
  let requestDelay := ratMin 1 residual
  pollLoopGo oracle (timeout.num.toNat + 5) 1 residual requestDelay r0 []

/-- Unfolding lemma for the poll loop: with fuel available, a terminal
current status exits at the top, returning the current payload. -/
theorem pollLoopGo_exit_terminal (oracle : Nat → JobPayload) (fuel k : Nat)
    (residual d : ℚ) (cur : JobPayload) (waits : List ℚ) (s : String)
    (hs : cur.status = some s) (ht : pollTerminal.contains s = true) :
    pollLoopGo oracle (fuel + 1) k residual d cur waits =
      .ok (cur, waits.reverse) := by
  have ht1 : s ∈ pollTerminal := by simpa using ht
  simp [pollLoopGo, hs, ht1]

/-- Unfolding lemma for the poll loop: a non-terminal status triggers one
sleep and one re-query, and when that consumes the whole remaining budget
the loop breaks, returning the freshly queried payload as-is. -/
theorem pollLoopGo_step_exhaust (oracle : Nat → JobPayload) (fuel k : Nat)
    (residual d : ℚ) (cur : JobPayload) (waits : List ℚ) (s : String)
    (hs : cur.status = some s) (ht : pollTerminal.contains s = false)
    (hd : ¬d < 0) (hr : residual - d ≤ 0) :
    pollLoopGo oracle (fuel + 1) k residual d cur waits =
      .ok (oracle k, (d :: waits).reverse) := by
  have ht1 : s ∉ pollTerminal := by simpa using ht
  have hr1 : residual ≤ d := by linarith
  simp [pollLoopGo, hs, ht1, hd, hr1]

/-! ### The result codec (`_process_results`, line 341) -/

/-- Python `zip(*list(res.values()))`: transpose the per-register lists of
per-shot bit values into one tuple per shot, truncating to the shortest
register list; `zip()` of no iterables is empty. -/
def pyZip (ls : List (List String)) : List (List String) :=
  match (ls.map List.length).min? with
  | none => []
  | some n => (List.range n).map (fun i => ls.map (fun l => l.getD i ""))

/-- One binary digit for `int(s, 2)`. -/
def binDigit? (c : Char) : Option Nat :=
  if c = '0' then some 0 else if c = '1' then some 1 else none

/-- Python `int(s, 2)` on a candidate bitstring: `none` models the
`ValueError` raised on an empty string or a non-binary character. -/
def binToNat? (s : String) : Option Nat :=
  if s.isEmpty then none
  else s.data.foldl
    (fun acc c => acc.bind (fun a => (binDigit? c).map (fun d => 2 * a + d)))
    (some 0)

/-- Python `hex(n)` for a natural number: `"0x"` followed by lowercase
hexadecimal digits, `"0x0"` for zero. -/
def pyHex (n : Nat) : String := "0x" ++ (Nat.toDigits 16 n).asString

/-- Python `dict(Counter(xs))` viewed as an association list: one entry per
distinct element with its multiplicity.  (CPython lists keys in
first-encounter order; only the key set and the counts are relied on.) -/
def counterDict (xs : List String) : List (String × Nat) :=
  xs.dedup.map (fun k => (k, xs.count k))

/-- The generator `int("".join(r), 2) for r in zip(*...)`: all shots must
parse, the first failure raises (modelled as `none`). -/
def shotNats : List (List String) → Option (List Nat)
  | [] => some []
  | r :: rest =>
    match binToNat? (String.join r), shotNats rest with
    | some n, some ns => some (n :: ns)
    | _, _ => none

/-- Source line 341:
`counts = dict(Counter(hex(int("".join(r), 2)) for r in [*zip(*list(res.values()))]))`. -/
def processExperiment (res : List (List String)) :
    Except PyError (List (String × Nat)) :=
  match shotNats (pyZip res) with
  | none => .error (.valueError "invalid literal for int() with base 2")
  | some ns => .ok (counterDict (ns.map pyHex))

/-! ### `_get_status` -/

/-- A record of the I/O a call performed: remote status queries, websocket
connections opened, and the durations passed to `sleep` (in order). -/
structure IOLog where
  queries : Nat
  wsConnects : Nat
  sleeps : List ℚ
  deriving DecidableEq, Repr

/-- Sequential composition of two I/O records. -/
def IOLog.append (a b : IOLog) : IOLog :=
  ⟨a.queries + b.queries, a.wsConnects + b.wsConnects, a.sleeps ++ b.sleeps⟩

/-- An entry appended to `self._experiment_results`: either a payload dict,
or — when the short-circuit at the top of `_get_status` fires — the raw
value of `self._status`. -/
inductive ExpEntry where
  | payload (p : JobPayload)
  | statusVal (s : StoredStatus)
  deriving DecidableEq, Repr

/-- `_get_status(job_id, timeout)` for one job id.  `api k` is the payload of
the k-th `self._api.job_status(job_id)` call of this invocation; `ws` is the
message the websocket would deliver within the timeout (`none` models a
receive failure).  Mirrors lines 254-294: the terminal/unset short-circuit,
the websocket branch, the polling fallback, and the catch-all that rewraps
any exception of the `try` block as `JobError(str(err))`. -/
def getStatusFull (status : StoredStatus) (jobId : Option String) (timeout : ℚ)
    (api : Nat → JobPayload) (ws : Option JobPayload) :
    Except PyError (ExpEntry × IOLog) :=
  if jobId = none ∨ status.isFinal then
    .ok (.statusVal status, ⟨0, 0, []⟩)
  else
    let r0 := api 0
    if r0.websocket then
      match ws with
      | some p => .ok (.payload p, ⟨1, 1, []⟩)
      | none => .error (.jobError "websocket receive timed out")
    else
      match pollFrom api timeout r0 with
      | .ok (p, waits) => .ok (.payload p, ⟨1 + waits.length, 0, waits⟩)
      | .error e => .error (.jobError e.toMessage)

/-! ### Job state, `_process_results`, `status`, `result`, `submit` -/

/-- One per-experiment record of the aggregate result (the dict built at
lines 343-348).  The header attachment (lines 349-357) carries circuit
metadata from outside the modelled core and is omitted. -/
structure ExperimentResult where
  shots : Nat
  success : Bool
  counts : List (String × Nat)
  jobId : String
  deriving DecidableEq, Repr

/-- The aggregate result dict (lines 360-367).  The backend name/version
fields come from the backend collaborator and are omitted. -/
structure QResult where
  success : Bool
  jobId : Option String
  results : List ExperimentResult
  deriving DecidableEq, Repr

/-- The mutable fields of a `QuantinuumJob` that the modelled methods read
or write.  `shotsCfg` models the `'shots'` key of `self._job_config`
(`self._job_config.get('shots', 1)` at use).  Job ids held by a submitted
job are strings; the `None`-id case of `_get_status` is modelled through its
explicit `jobId` argument. -/
structure JobState where
  jobIds : List String
  status : StoredStatus
  apiErrorMsg : Option String
  result : Option QResult
  experimentResults : List ExpEntry
  jobId : Option String
  shotsCfg : Option Nat
  deriving DecidableEq, Repr

/-- The body of the `_process_results` loop for the i-th collected entry
(lines 336-348), evaluated in source order: `res_resp.get('status',
'failed')` (AttributeError on a non-dict entry), the `'failed'` flag,
`res_resp['results']` (KeyError when absent), the counts expression
(ValueError on a bad bitstring), `ApiJobStatus(status)` (ValueError on an
unknown status string), `self._job_ids[i]` (IndexError past the end).  The
returned flag says whether this entry sets `self._status = JobStatus.ERROR`;
in the source that assignment happens before the later steps can raise, but
the raised exception propagates out of `status()`/`result()` either way, so
the post-exception field state is not tracked. -/
def processOne (jobIds : List String) (shots : Nat) (i : Nat) :
    ExpEntry → Except PyError (Bool × ExperimentResult)
  | .statusVal _ => .error (.attributeError "get")
  | .payload p =>
    match p.results with
    | none => .error (.keyError "results")
    | some res =>
      match processExperiment res with
      | .error e => .error e
      | .ok counts =>
        match ApiJobStatus.ofString (p.status.getD "failed") with
        | none => .error (.valueError (p.status.getD "failed"))
        | some a =>
          match jobIds.get? i with
          | none => .error .indexError
          | some jid =>
            .ok (p.status.getD "failed" == "failed",
              { shots := shots, success := a == ApiJobStatus.completed,
                counts := counts, jobId := jid })

/-- The `_process_results` loop from index `i` with current overall status
`s` (initially `JobStatus.DONE`; flipped to `ERROR` by any entry whose
status string is `'failed'`, and never reset within the loop). -/
def processGo (jobIds : List String) (shots : Nat) :
    Nat → List ExpEntry → StoredStatus →
    Except PyError (List ExperimentResult × StoredStatus)
  | _, [], s => .ok ([], s)
  | i, e :: rest, s =>
    match processOne jobIds shots i e with
    | .error err => .error err
    | .ok (flag, er) =>
      match processGo jobIds shots (i + 1) rest
          (if flag then .js .error else s) with
      | .error err => .error err
      | .ok (ers, s1) => .ok (er :: ers, s1)

/-- `_process_results` (lines 332-368): resets `self._status` to `DONE`,
folds over `self._experiment_results`, and assembles the aggregate result
whose `success` is `self._status is JobStatus.DONE`.  Returns the result
object together with the final stored status. -/
def processResults (st : JobState) : Except PyError (QResult × StoredStatus) :=
  match processGo st.jobIds (st.shotsCfg.getD 1) 0 st.experimentResults
      (.js .done) with
  | .error e => .error e
  | .ok (ers, s1) =>
    .ok ({ success := s1 == .js .done, jobId := st.jobId, results := ers }, s1)

/-- The collection loop shared by `status()` and `result()`:
`for job_id in self._job_ids: self._experiment_results.append(...)`, each
append coming from one `_get_status` call.  `api jid k` is the payload of
the k-th query for `jid` within one `_get_status` invocation; `ws jid` the
websocket delivery for `jid`. -/
def collectGo (api : String → Nat → JobPayload) (ws : String → Option JobPayload)
    (timeout : ℚ) :
    List String → JobState → IOLog → Except PyError (JobState × IOLog)
  | [], st, log => .ok (st, log)
  | jid :: rest, st, log =>
    match getStatusFull st.status (some jid) timeout (api jid) (ws jid) with
    | .error e => .error e
    | .ok (entry, l) =>
      collectGo api ws timeout rest
        { st with experimentResults := st.experimentResults ++ [entry] }
        (log.append l)

/-- Collect one `_get_status` answer per held job id, in order. -/
def collectEntries (api : String → Nat → JobPayload)
    (ws : String → Option JobPayload) (timeout : ℚ) (st : JobState) :
    Except PyError (JobState × IOLog) :=
  collectGo api ws timeout st.jobIds st ⟨0, 0, []⟩

/-- `status(timeout)` (lines 296-315): collect, process, store the result,
return `self._status`. -/
def statusFn (api : String → Nat → JobPayload) (ws : String → Option JobPayload)
    (timeout : ℚ) (st : JobState) :
    Except PyError (StoredStatus × JobState × IOLog) :=
  match collectEntries api ws timeout st with
  | .error e => .error e
  | .ok (st1, log) =>
    match processResults st1 with
    | .error e => .error e
    | .ok (qr, s1) =>
      .ok (s1, { st1 with status := s1, result := some qr }, log)

/-- `result(timeout)` (lines 201-238): return the cached result when one is
present (`if self._result:` — a `Result` object is always truthy), else
collect and process, cache the result, and apply the two guards: raise
unless the final status is `DONE` or `CANCELLED`, and raise if no result
object was produced (`if not self._result:` — unreachable after the
assignment on line 229, but mirrored). -/
def resultFn (api : String → Nat → JobPayload) (ws : String → Option JobPayload)
    (timeout : ℚ) (st : JobState) :
    Except PyError (QResult × JobState × IOLog) :=
  match st.result with
  | some r => .ok (r, st, ⟨0, 0, []⟩)
  | none =>
    match collectEntries api ws timeout st with
    | .error e => .error e
    | .ok (st1, log) =>
      match processResults st1 with
      | .error e => .error e
      | .ok (qr, s1) =>
        if s1 = .js .done ∨ s1 = .js .cancelled then
          if ({ st1 with status := s1, result := some qr } : JobState).result
              = none then
            .error (.jobError "Server did not return result")
          else
            .ok (qr, { st1 with status := s1, result := some qr }, log)
        else
          .error (.jobError
            "Invalid job state. The job should be DONE or CANCELLED")

/-- One response of `self._api.job_submit(...)`.  `error` is the `'error'`
key (already through `str(...)`), `job` the `'job'` key, `status` and
`submitDate` the keys read with `.get` after the loop. -/
structure SubmitInfo where
  error : Option String
  job : Option String
  status : Option String
  submitDate : Option String
  deriving DecidableEq, Repr

/-- The `submit` loop (lines 185-199) with the trailing use of the last
response: on an `'error'` key, set `self._status = JobStatus.ERROR`, capture
the message and return at once; otherwise append `submit_info['job']`
(KeyError when absent) and continue; after the loop take status and top-level
id from the last response (`submit_info` unbound when there was no
experiment). -/
def submitGo : List SubmitInfo → JobState → Option SubmitInfo →
    Except PyError JobState
  | [], st, last =>
    match last with
    | none => .error (.nameError "submit_info")
    | some si => .ok { st with status := .raw si.status, jobId := si.job }
  | si :: rest, st, _ =>
    if si.error.isSome then
      .ok { st with
            status := StoredStatus.js JobStatus.error
            apiErrorMsg := some (si.error.getD "") }
    else
      match si.job with
      | none => .error (.keyError "job")
      | some jid =>
        submitGo rest { st with jobIds := st.jobIds ++ [jid] } (some si)

/-- `submit()` over the per-experiment submission responses, one response
per experiment in order. -/
def submit (st : JobState) (responses : List SubmitInfo) :
    Except PyError JobState :=
  submitGo responses st none

/-! ### `Backend.status` (api/rest/backend.py, lines 49-68) -/

/-- The machine-status JSON response, restricted to the keys the adapter
touches.  `pendingObs` is the `'pending_obs'` key that line 64 actually
subscripts. -/
structure MachineResponse where
  version : Option String
  state : Option String
  pendingJobs : Option Int
  pendingObs : Option Int
  deriving DecidableEq, Repr

/-- The dictionary `Backend.status` returns. -/
structure BackendStatusDict where
  backendName : String
  backendVersion : String
  statusMsg : String
  operational : Bool
  pendingJobs : Int
  deriving DecidableEq, Repr

/-- `Backend.status`: base fields from `.get` with defaults (`operational`
is `bool(response.get('state', False))`, i.e. a present non-empty string);
then, when the `'pending_jobs'` key is present, line 64 reads
`response['pending_obs']` — `KeyError` when that key is absent — and clamps
with `max(.., 0)`; when `'pending_jobs'` is absent the field defaults to 0. -/
def backendStatus (backendName : String) (resp : MachineResponse) :
    Except PyError BackendStatusDict :=
  let base : BackendStatusDict :=
    { backendName := backendName
      backendVersion := resp.version.getD "0.0.0"
      statusMsg := resp.state.getD ""
      operational := match resp.state with
        | some s => !s.isEmpty
        | none => false
      pendingJobs := 0 }
  if resp.pendingJobs.isSome then
    match resp.pendingObs with
    | none => .error (.keyError "pending_obs")
    | some v => .ok { base with pendingJobs := max v 0 }
  else
    .ok base

/-! ### Concrete fixtures -/

/-- A payload whose status is still `running` (poll mode: no websocket). -/
def runningPayload : JobPayload :=
  { status := some "running", results := some [], websocket := false }

/-- An initial status response that offers the websocket transport. -/
def p9 : JobPayload :=
  { status := some "queued", results := none, websocket := true }

/-- The resolved payload the websocket delivers: one single-bit register,
one shot, completed. -/
def wsMsg : JobPayload :=
  { status := some "completed", results := some [["0"]], websocket := false }

/-- A freshly constructed job holding one remote id, not yet terminal. -/
def j9 : JobState :=
  { jobIds := ["jid-0"], status := .js .queued, apiErrorMsg := none
    result := none, experimentResults := [], jobId := some "jid-0"
    shotsCfg := some 1 }

/-- A REST oracle that always offers the websocket transport. -/
def api9 : String → Nat → JobPayload := fun _ _ => p9

/-- A websocket oracle that delivers the completed payload. -/
def ws9 : String → Option JobPayload := fun _ => some wsMsg

/-- The aggregate result `j9` resolves to. -/
def qr9 : QResult :=
  { success := true, jobId := some "jid-0"
    results := [{ shots := 1, success := true, counts := [("0x0", 1)]
                  jobId := "jid-0" }] }

/-- The state of `j9` after one successful `status()`/`result()` call. -/
def j9After : JobState :=
  { jobIds := ["jid-0"], status := .js .done, apiErrorMsg := none
    result := some qr9, experimentResults := [.payload wsMsg]
    jobId := some "jid-0", shotsCfg := some 1 }

/-- A job before submission: no ids, nothing cached. -/
def emptyJob : JobState :=
  { jobIds := [], status := .js .initial, apiErrorMsg := none
    result := none, experimentResults := [], jobId := none, shotsCfg := some 1 }

/-- A successful submission response carrying id `id-0`. -/
def subOk : SubmitInfo := ⟨none, some "id-0", some "queued", none⟩

/-- A submission response carrying an `'error'` field. -/
def subErr : SubmitInfo := ⟨some "bad circuit", none, none, none⟩

/-! ### Theorems -/

/-- C1.  In poll mode with the default `timeout=300` and a remote that stays
`running`, `_get_status` sleeps exactly once, for `300/1000 = 0.3` seconds
(the source divides the documented seconds budget by 1000 under the comment
"convert us -> s"), exhausts the 0.3-second budget, performs two queries in
total and returns the still-non-terminal payload; the claimed first wait of
`min(1.0, timeout) = 1.0` seconds does not occur. -/
theorem c1_poll_budget_slip :
    getStatusFull (.js .queued) (some "job-id") 300 (fun _ => runningPayload)
        none =
      .ok (.payload runningPayload, ⟨2, 0, [3 / 10]⟩) ∧
    (3 / 10 : ℚ) ≠ ratMin 1 300 := by
  have hmin : ratMin 1 ((300 : ℚ) / 1000) = 3 / 10 := by
    rw [ratMin, if_neg (by norm_num)]
    norm_num
  have hpoll : pollFrom (fun _ => runningPayload) 300 runningPayload =
      .ok (runningPayload, [3 / 10]) := by
    unfold pollFrom
    rw [show ((300 : ℚ).num.toNat + 5) = ((300 : ℚ).num.toNat + 4) + 1
          from rfl,
      pollLoopGo_step_exhaust (fun _ => runningPayload) ((300 : ℚ).num.toNat + 4)
        1 ((300 : ℚ) / 1000) (ratMin 1 ((300 : ℚ) / 1000)) runningPayload []
        "running" rfl (by decide) (by rw [hmin]; norm_num)
        (by rw [hmin]; norm_num)]
    simp [hmin]
  constructor
  · have hstep : getStatusFull (.js .queued) (some "job-id") 300
        (fun _ => runningPayload) none =
        match pollFrom (fun _ => runningPayload) 300 runningPayload with
        | .ok (p, waits) => .ok (.payload p, ⟨1 + waits.length, 0, waits⟩)
        | .error e => .error (.jobError e.toMessage) := rfl
    rw [hstep, hpoll]
    rfl
  · rw [ratMin, if_pos (by norm_num)]
    norm_num

/-- C2.  When one of the per-experiment submission responses carries an
`'error'` field, `submit` stops at once: the stored status becomes the
failure terminal state (`JobStatus.ERROR`, the spec's FAILED), the error
text is captured for `error_message()`, and the retained job ids are exactly
those of the experiments submitted before the failure — for two experiments
with the second failing, only the first experiment's id. -/
theorem c2_submit_error_stops (st : JobState) (r1 r2 : SubmitInfo)
    (rest : List SubmitInfo) (id1 msg : String)
    (h0 : st.jobIds = []) (h1 : r1.error = none) (h2 : r1.job = some id1)
    (h3 : r2.error = some msg) :
    submit st (r1 :: r2 :: rest) =
      .ok { st with
            jobIds := [id1]
            status := StoredStatus.js JobStatus.error
            apiErrorMsg := some msg } := by
  unfold submit submitGo
  rw [h1, h2]
  simp only [Option.isSome_none, Bool.false_eq_true, if_false]
  unfold submitGo
  rw [h3]
  simp [h0, h3]

/-- Witness for C2 at a concrete two-experiment submission. -/
theorem c2_submit_error_stops_witness :
    submit emptyJob [subOk, subErr] =
      .ok { emptyJob with
            jobIds := ["id-0"]
            status := StoredStatus.js JobStatus.error
            apiErrorMsg := some "bad circuit" } :=
  c2_submit_error_stops emptyJob subOk subErr [] "id-0" "bad circuit"
    rfl rfl rfl rfl

/-- All shots parse: the parsed list has one number per shot. -/
theorem shotNats_length : ∀ (l : List (List String)) (ns : List Nat),
    shotNats l = some ns → ns.length = l.length := by
  intro l
  induction l with
  | nil =>
    intro ns h
    simp only [shotNats, Option.some.injEq] at h
    subst h
    rfl
  | cons r rest ih =>
    intro ns h
    simp only [shotNats] at h
    cases hb : binToNat? (String.join r) with
    | none => rw [hb] at h; cases h
    | some n =>
      cases hrest : shotNats rest with
      | none => rw [hb, hrest] at h; cases h
      | some ms =>
        rw [hb, hrest] at h
        cases h
        simp [ih ms hrest]

/-- Every parsed number comes from one of the shots. -/
theorem shotNats_mem : ∀ (l : List (List String)) (ns : List Nat) (n : Nat),
    shotNats l = some ns → n ∈ ns →
    ∃ r ∈ l, binToNat? (String.join r) = some n := by
  intro l
  induction l with
  | nil =>
    intro ns n h hn
    simp only [shotNats, Option.some.injEq] at h
    subst h
    cases hn
  | cons r rest ih =>
    intro ns n h hn
    simp only [shotNats] at h
    cases hb : binToNat? (String.join r) with
    | none => rw [hb] at h; cases h
    | some m =>
      cases hrest : shotNats rest with
      | none => rw [hb, hrest] at h; cases h
      | some ms =>
        rw [hb, hrest] at h
        cases h
        rcases List.mem_cons.1 hn with rfl | hmem
        · exact ⟨r, List.mem_cons_self r rest, hb⟩
        · obtain ⟨r1, hr1, hb1⟩ := ih ms n hrest hmem
          exact ⟨r1, List.mem_cons_of_mem r hr1, hb1⟩

/-- C3.  The result codec transposes per-register per-shot bit values into
one bitstring per shot and produces an exact histogram keyed by the
hexadecimal encoding of each bitstring read in base 2: the counts sum to
the number of shots returned in the payload, and every key is the hex
encoding of an observed bitstring. -/
theorem c3_histogram_exact (res : List (List String))
    (counts : List (String × Nat))
    (h : processExperiment res = .ok counts) :
    (counts.map Prod.snd).sum = (pyZip res).length ∧
    ∀ kc ∈ counts, ∃ r ∈ pyZip res, ∃ n : Nat,
      binToNat? (String.join r) = some n ∧ kc.1 = pyHex n := by
  unfold processExperiment at h
  cases hsn : shotNats (pyZip res) with
  | none => rw [hsn] at h; cases h
  | some ns =>
    rw [hsn] at h
    cases h
    constructor
    · rw [counterDict, List.map_map]
      have hcomp : (Prod.snd ∘ fun k => (k, (ns.map pyHex).count k)) =
          fun k => (ns.map pyHex).count k := rfl
      rw [hcomp, List.sum_map_count_dedup_eq_length, List.length_map]
      exact shotNats_length _ _ hsn
    · intro kc hkc
      rw [counterDict] at hkc
      obtain ⟨k, hk, rfl⟩ := List.mem_map.1 hkc
      have hkx : k ∈ ns.map pyHex := List.mem_dedup.1 hk
      obtain ⟨n, hn, rfl⟩ := List.mem_map.1 hkx
      obtain ⟨r, hr, hbr⟩ := shotNats_mem _ _ _ hsn hn
      exact ⟨r, hr, n, hbr, rfl⟩

/-- The 100-shot example of the claim: one single-bit register with 60 zero
shots and 40 one shots. -/
def histRes : List (List String) :=
  [List.replicate 60 "0" ++ List.replicate 40 "1"]

set_option maxRecDepth 100000 in
/-- Witness for C3: the example yields exactly the histogram
`0x0 : 60, 0x1 : 40`, whose counts sum to the 100 shots. -/
theorem c3_histogram_exact_witness :
    processExperiment histRes = .ok [("0x0", 60), ("0x1", 40)] ∧
    (([("0x0", 60), ("0x1", 40)].map Prod.snd).sum = (pyZip histRes).length ∧
     ∀ kc ∈ [("0x0", 60), ("0x1", 40)], ∃ r ∈ pyZip histRes, ∃ n : Nat,
       binToNat? (String.join r) = some n ∧ kc.1 = pyHex n) :=
  ⟨by decide, c3_histogram_exact histRes [("0x0", 60), ("0x1", 40)] (by decide)⟩

/-- C5.  When the job id is unset, or the cached status is one of the
terminal `JOB_FINAL_STATES` (`DONE`/`CANCELLED`/`ERROR`, the spec's
COMPLETED/CANCELED/FAILED), `_get_status` returns the cached status at once
with no remote query, no websocket connection and no sleep. -/
theorem c5_terminal_short_circuit (status : StoredStatus)
    (jobId : Option String) (t : ℚ) (api : Nat → JobPayload)
    (ws : Option JobPayload)
    (h : jobId = none ∨ ∃ s ∈ JOB_FINAL_STATES, status = .js s) :
    getStatusFull status jobId t api ws =
      .ok (.statusVal status, ⟨0, 0, []⟩) := by
  have hcond : jobId = none ∨ status.isFinal := by
    rcases h with h | ⟨s, hs, rfl⟩
    · exact Or.inl h
    · right
      simp only [JOB_FINAL_STATES, List.mem_cons, List.not_mem_nil, or_false]
        at hs
      rcases hs with rfl | rfl | rfl <;> decide
  unfold getStatusFull
  rw [if_pos hcond]

/-- Witness for C5 at a terminal cached status. -/
theorem c5_terminal_short_circuit_witness :
    getStatusFull (.js .done) (some "jid-0") 300 (fun _ => runningPayload)
        none =
      .ok (.statusVal (.js .done), ⟨0, 0, []⟩) :=
  c5_terminal_short_circuit (.js .done) (some "jid-0") 300
    (fun _ => runningPayload) none (Or.inr ⟨.done, by decide, rfl⟩)

/-- A clean run of the submit loop (no `'error'` field, every response
carrying a `'job'` id) appends exactly the response ids in order and leaves
the cached result, the accumulator and the shot configuration untouched. -/
theorem submitGo_clean : ∀ (resps : List SubmitInfo) (st : JobState)
    (last : Option SubmitInfo),
    (∀ r ∈ resps, r.error = none) → (∀ r ∈ resps, r.job ≠ none) →
    (resps ≠ [] ∨ last.isSome) →
    ∃ st', submitGo resps st last = .ok st' ∧
      st'.jobIds = st.jobIds ++ resps.filterMap SubmitInfo.job ∧
      st'.result = st.result ∧
      st'.experimentResults = st.experimentResults ∧
      st'.shotsCfg = st.shotsCfg := by
  intro resps
  induction resps with
  | nil =>
    intro st last herr hjob hne
    rcases hne with h | h
    · exact absurd rfl h
    · cases hlast : last with
      | none => rw [hlast] at h; cases h
      | some si => exact ⟨_, rfl, by simp, rfl, rfl, rfl⟩
  | cons si rest ih =>
    intro st last herr hjob hne
    have hse : si.error = none := herr si (List.mem_cons_self si rest)
    cases hsj : si.job with
    | none => exact absurd hsj (hjob si (List.mem_cons_self si rest))
    | some jid =>
      have hstep : submitGo (si :: rest) st last =
          submitGo rest { st with jobIds := st.jobIds ++ [jid] } (some si) := by
        simp [submitGo, hse, hsj]
      rw [hstep]
      obtain ⟨st', h1, h2, h3, h4, h5⟩ :=
        ih { st with jobIds := st.jobIds ++ [jid] } (some si)
          (fun r hr => herr r (List.mem_cons_of_mem si hr))
          (fun r hr => hjob r (List.mem_cons_of_mem si hr)) (Or.inr rfl)
      refine ⟨st', h1, ?_, h3, h4, h5⟩
      rw [h2]
      simp [List.filterMap_cons, hsj]

/-- A successful collection pass only appends to the accumulator — one entry
per held job id — and leaves every other modelled field unchanged. -/
theorem collectGo_ok_fields (api : String → Nat → JobPayload)
    (ws : String → Option JobPayload) (t : ℚ) :
    ∀ (ids : List String) (st : JobState) (log : IOLog) (st1 : JobState)
      (log1 : IOLog),
    collectGo api ws t ids st log = .ok (st1, log1) →
    st1.jobIds = st.jobIds ∧ st1.status = st.status ∧
    st1.result = st.result ∧ st1.jobId = st.jobId ∧
    st1.shotsCfg = st.shotsCfg ∧ st1.apiErrorMsg = st.apiErrorMsg ∧
    ∃ extra, st1.experimentResults = st.experimentResults ++ extra ∧
      extra.length = ids.length := by
  intro ids
  induction ids with
  | nil =>
    intro st log st1 log1 h
    cases h
    exact ⟨rfl, rfl, rfl, rfl, rfl, rfl, [], by simp, rfl⟩
  | cons jid rest ih =>
    intro st log st1 log1 h
    unfold collectGo at h
    split at h
    · cases h
    · rename_i entry l heq
      obtain ⟨h1, h2, h3, h4, h5, h6, extra, hx, hlen⟩ := ih _ _ _ _ h
      refine ⟨h1, h2, h3, h4, h5, h6, entry :: extra, ?_, by simp [hlen]⟩
      rw [hx]
      simp

/-- A successfully processed entry drew its recorded id from
`self._job_ids[i]`. -/
theorem processOne_ok_jobId (jobIds : List String) (shots i : Nat)
    (e : ExpEntry) (flag : Bool) (er : ExperimentResult)
    (h : processOne jobIds shots i e = .ok (flag, er)) :
    jobIds.get? i = some er.jobId := by
  cases e with
  | statusVal s => cases h
  | payload p =>
    unfold processOne at h
    cases hres : p.results with
    | none => simp only [hres] at h; cases h
    | some res =>
      simp only [hres] at h
      cases hpe : processExperiment res with
      | error e1 => simp only [hpe] at h; cases h
      | ok counts =>
        simp only [hpe] at h
        cases hof : ApiJobStatus.ofString (p.status.getD "failed") with
        | none => simp only [hof] at h; cases h
        | some a =>
          simp only [hof] at h
          cases hg : jobIds.get? i with
          | none => simp only [hg] at h; cases h
          | some jid =>
            simp only [hg] at h
            cases h
            rfl

/-- A successful `_process_results` fold records, in order, exactly the ids
`self._job_ids[i]` for the processed indices, and only ever moves the
overall status from its start value to `ERROR`. -/
theorem processGo_ok_spec (jobIds : List String) (shots : Nat) :
    ∀ (entries : List ExpEntry) (i : Nat) (s : StoredStatus)
      (ers : List ExperimentResult) (s1 : StoredStatus),
    processGo jobIds shots i entries s = .ok (ers, s1) →
    ers.map ExperimentResult.jobId = (jobIds.drop i).take entries.length ∧
    ers.length = entries.length ∧
    (s1 = s ∨ s1 = .js .error) := by
  intro entries
  induction entries with
  | nil =>
    intro i s ers s1 h
    cases h
    exact ⟨by simp, rfl, Or.inl rfl⟩
  | cons e rest ih =>
    intro i s ers s1 h
    unfold processGo at h
    cases hone : processOne jobIds shots i e with
    | error err => simp only [hone] at h; cases h
    | ok fe =>
      obtain ⟨flag, er⟩ := fe
      simp only [hone] at h
      cases hgo : processGo jobIds shots (i + 1) rest
          (if flag then .js .error else s) with
      | error err => simp only [hgo] at h; cases h
      | ok rs =>
        obtain ⟨ers2, s2⟩ := rs
        simp only [hgo] at h
        obtain ⟨hmap, hlen, hs⟩ := ih (i + 1) _ ers2 s2 hgo
        have hjid := processOne_ok_jobId jobIds shots i e flag er hone
        obtain ⟨hlt, hget⟩ := List.get?_eq_some.1 hjid
        have hdrop : jobIds.drop i = er.jobId :: jobIds.drop (i + 1) := by
          rw [List.drop_eq_getElem_cons hlt, ← hget]
          rfl
        cases h
        refine ⟨?_, by simp [hlen], ?_⟩
        · rw [List.map_cons, hmap, hdrop, List.length_cons,
            List.take_succ_cons]
        · rcases hs with rfl | rfl
          · cases flag
            · simp
            · simp
          · exact Or.inr rfl

/-- Inversion of a successful `_process_results` run: the fold succeeded
starting from `DONE`, and the aggregate wraps its output list. -/
theorem processResults_ok_inv (st : JobState) (qr : QResult)
    (s1 : StoredStatus) (h : processResults st = .ok (qr, s1)) :
    processGo st.jobIds (st.shotsCfg.getD 1) 0 st.experimentResults
      (.js .done) = .ok (qr.results, s1) ∧ qr.jobId = st.jobId := by
  unfold processResults at h
  split at h
  · cases h
  · rename_i ers s2 heq
    cases h
    exact ⟨heq, rfl⟩

/-- Appending the zero record changes nothing. -/
theorem IOLog.append_zero (log : IOLog) : log.append ⟨0, 0, []⟩ = log := by
  cases log
  simp [IOLog.append]

/-- When the stored status is already terminal, every `_get_status` of the
collection loop short-circuits: the pass appends one copy of the stored
status per job id and performs no I/O at all. -/
theorem collectGo_final (api : String → Nat → JobPayload)
    (ws : String → Option JobPayload) (t : ℚ) :
    ∀ (ids : List String) (st : JobState) (log : IOLog),
    st.status.isFinal = true →
    collectGo api ws t ids st log =
      .ok ({ st with experimentResults := st.experimentResults ++
               ids.map (fun _ => .statusVal st.status) }, log) := by
  intro ids
  induction ids with
  | nil =>
    intro st log hfin
    simp [collectGo]
  | cons jid rest ih =>
    intro st log hfin
    have hget : getStatusFull st.status (some jid) t (api jid) (ws jid) =
        .ok (.statusVal st.status, ⟨0, 0, []⟩) := by
      unfold getStatusFull
      rw [if_pos (Or.inr hfin)]
    unfold collectGo
    simp only [hget]
    rw [IOLog.append_zero log]
    rw [ih { st with experimentResults :=
          st.experimentResults ++ [.statusVal st.status] } log hfin]
    simp

/-- The `_process_results` fold over a concatenation runs the first block,
then the second from the accumulated index and status. -/
theorem processGo_append (jobIds : List String) (shots : Nat) :
    ∀ (l1 l2 : List ExpEntry) (i : Nat) (s : StoredStatus),
    processGo jobIds shots i (l1 ++ l2) s =
      match processGo jobIds shots i l1 s with
      | .error e => .error e
      | .ok (ers, s1) =>
        match processGo jobIds shots (i + l1.length) l2 s1 with
        | .error e => .error e
        | .ok (ers2, s2) => .ok (ers ++ ers2, s2) := by
  intro l1
  induction l1 with
  | nil =>
    intro l2 i s
    cases hgo : processGo jobIds shots i l2 s with
    | error e => simp [processGo, hgo]
    | ok rs =>
      obtain ⟨ers2, s2⟩ := rs
      simp [processGo, hgo]
  | cons e rest ih =>
    intro l2 i s
    cases hone : processOne jobIds shots i e with
    | error err =>
      have hl : processGo jobIds shots i (e :: (rest ++ l2)) s = .error err := by
        unfold processGo
        simp only [hone]
      have hr : processGo jobIds shots i (e :: rest) s = .error err := by
        unfold processGo
        simp only [hone]
      rw [show (e :: rest) ++ l2 = e :: (rest ++ l2) from rfl, hl, hr]
    | ok fe =>
      obtain ⟨flag, er⟩ := fe
      have hl : processGo jobIds shots i (e :: (rest ++ l2)) s =
          match processGo jobIds shots (i + 1) (rest ++ l2)
              (if flag then .js .error else s) with
          | .error e2 => .error e2
          | .ok (ers1, s1) => .ok (er :: ers1, s1) := by
        conv_lhs => rw [processGo.eq_def]
        simp only [hone]
      have hr : processGo jobIds shots i (e :: rest) s =
          match processGo jobIds shots (i + 1) rest
              (if flag then .js .error else s) with
          | .error e2 => .error e2
          | .ok (ers1, s1) => .ok (er :: ers1, s1) := by
        conv_lhs => rw [processGo.eq_def]
        simp only [hone]
      rw [show (e :: rest) ++ l2 = e :: (rest ++ l2) from rfl, hl, hr,
        ih l2 (i + 1) (if flag then .js .error else s)]
      cases hgo1 : processGo jobIds shots (i + 1) rest
          (if flag then .js .error else s) with
      | error e2 => simp
      | ok rs1 =>
        obtain ⟨ers1, s1⟩ := rs1
        have hidx : i + (e :: rest).length = (i + 1) + rest.length := by
          simp [Nat.add_comm, Nat.add_assoc, Nat.add_left_comm]
        simp only [hidx]
        cases hgo2 : processGo jobIds shots ((i + 1) + rest.length) l2 s1 with
        | error e2 => simp
        | ok rs2 =>
          obtain ⟨ers2, s2⟩ := rs2
          simp

/-- Inversion of a successful `status()` call: collection and processing
succeeded, and the returned status is the processed one, which is also
stored together with the computed result. -/
theorem statusFn_ok_inv (api : String → Nat → JobPayload)
    (ws : String → Option JobPayload) (t : ℚ) (st : JobState)
    (s1 : StoredStatus) (stf : JobState) (log : IOLog)
    (h : statusFn api ws t st = .ok (s1, stf, log)) :
    ∃ stc qr, collectEntries api ws t st = .ok (stc, log) ∧
      processResults stc = .ok (qr, s1) ∧
      stf = { stc with status := s1, result := some qr } := by
  unfold statusFn at h
  split at h
  · cases h
  · rename_i stc log1 heq
    split at h
    · cases h
    · rename_i qr s2 heq2
      cases h
      exact ⟨stc, qr, heq, heq2, rfl⟩

/-- Inversion of a successful `result()` call that was not served from the
cache: the collection and processing stages succeeded, the final status
passed the DONE/CANCELLED guard, and the produced result was cached. -/
theorem resultFn_ok_inv (api : String → Nat → JobPayload)
    (ws : String → Option JobPayload) (t : ℚ) (st : JobState)
    (qr : QResult) (st2 : JobState) (log : IOLog)
    (hres : st.result = none)
    (h : resultFn api ws t st = .ok (qr, st2, log)) :
    ∃ st1 s1, collectEntries api ws t st = .ok (st1, log) ∧
      processResults st1 = .ok (qr, s1) ∧
      st2 = { st1 with status := s1, result := some qr } ∧
      (s1 = .js .done ∨ s1 = .js .cancelled) := by
  unfold resultFn at h
  split at h
  · rename_i r heq
    rw [hres] at heq
    cases heq
  · split at h
    · cases h
    · rename_i st1 log1 heq
      split at h
      · cases h
      · rename_i qr1 s1 heq2
        by_cases hok : s1 = .js .done ∨ s1 = .js .cancelled
        · rw [if_pos hok, if_neg (by simp)] at h
          cases h
          exact ⟨st1, s1, heq, heq2, rfl, hok⟩
        · rw [if_neg hok] at h
          cases h

/-- C4.  `result()` is memoized: after any successful `result()` call, a
second call returns the same cached result object and the unchanged state
immediately, with zero remote queries, zero websocket connections and zero
sleeps. -/
theorem c4_result_memoized (api : String → Nat → JobPayload)
    (ws : String → Option JobPayload) (t : ℚ) (st : JobState)
    (qr : QResult) (st2 : JobState) (log : IOLog)
    (h : resultFn api ws t st = .ok (qr, st2, log)) :
    resultFn api ws t st2 = .ok (qr, st2, ⟨0, 0, []⟩) := by
  cases hres : st.result with
  | some r =>
    have hcached : resultFn api ws t st = .ok (r, st, ⟨0, 0, []⟩) := by
      unfold resultFn
      rw [hres]
    rw [hcached] at h
    cases h
    unfold resultFn
    rw [hres]
  | none =>
    obtain ⟨st1, s1, hc, hp, hst2, hok⟩ :=
      resultFn_ok_inv api ws t st qr st2 log hres h
    subst hst2
    rfl

/-- Witness for C4: after `j9` resolves through the websocket transport
(one query, one connection), the second `result()` call answers from the
cache with no further I/O. -/
theorem c4_result_memoized_witness :
    resultFn api9 ws9 300 j9After = .ok (qr9, j9After, ⟨0, 0, []⟩) :=
  c4_result_memoized api9 ws9 300 j9 qr9 j9After ⟨1, 1, []⟩ (by decide)

/-- C6.  After processing the collected payloads, `result()` only returns a
result when the final status is DONE or CANCELLED and a result object was
produced and cached; whenever the processed status is neither DONE nor
CANCELLED it raises the job-level invalid-state error instead of returning
anything. -/
theorem c6_result_invariant (api : String → Nat → JobPayload)
    (ws : String → Option JobPayload) (t : ℚ) (st : JobState)
    (hres : st.result = none) :
    (∀ qr st2 log, resultFn api ws t st = .ok (qr, st2, log) →
      (st2.status = .js .done ∨ st2.status = .js .cancelled) ∧
      st2.result = some qr) ∧
    (∀ st1 log qr s1, collectEntries api ws t st = .ok (st1, log) →
      processResults st1 = .ok (qr, s1) →
      ¬(s1 = .js .done ∨ s1 = .js .cancelled) →
      resultFn api ws t st =
        .error (.jobError
          "Invalid job state. The job should be DONE or CANCELLED")) := by
  constructor
  · intro qr st2 log h
    obtain ⟨st1, s1, hc, hp, hst2, hok⟩ :=
      resultFn_ok_inv api ws t st qr st2 log hres h
    subst hst2
    exact ⟨hok, rfl⟩
  · intro st1 log qr s1 hc hp hnot
    unfold resultFn
    rw [hres]
    simp only [hc, hp]
    rw [if_neg hnot]

/-- The websocket delivery for a failed experiment. -/
def wsFailMsg : JobPayload :=
  { status := some "failed", results := some [["0"]], websocket := false }

/-- A websocket oracle that delivers the failed payload. -/
def wsF : String → Option JobPayload := fun _ => some wsFailMsg

/-- The aggregate result computed for the failed run of `j9`. -/
def qrF : QResult :=
  { success := false, jobId := some "jid-0"
    results := [{ shots := 1, success := false, counts := [("0x0", 1)]
                  jobId := "jid-0" }] }

/-- Witness for C6: a failed experiment drives the processed status to
`ERROR`, and `result()` raises the job-level invalid-state error. -/
theorem c6_result_invariant_witness :
    resultFn api9 wsF 300 j9 =
      .error (.jobError
        "Invalid job state. The job should be DONE or CANCELLED") :=
  (c6_result_invariant api9 wsF 300 j9 rfl).2
    { j9 with experimentResults := [.payload wsFailMsg] } ⟨1, 1, []⟩ qrF
    (.js .error) (by decide) (by decide) (by decide)

/-- C8.  For a fresh job, a clean submission of experiments records the
remote ids in exactly the submission order in `job_ids()`, and the
per-experiment records of `result().results` carry those ids in the same
order. -/
theorem c8_submission_order (st : JobState) (resps : List SubmitInfo)
    (api : String → Nat → JobPayload) (ws : String → Option JobPayload)
    (t : ℚ) (h0 : st.jobIds = []) (hexp : st.experimentResults = [])
    (hres : st.result = none) (hne : resps ≠ [])
    (herr : ∀ r ∈ resps, r.error = none)
    (hjob : ∀ r ∈ resps, r.job ≠ none) :
    ∃ st', submit st resps = .ok st' ∧
      st'.jobIds = resps.filterMap SubmitInfo.job ∧
      ∀ qr st2 log, resultFn api ws t st' = .ok (qr, st2, log) →
        qr.results.map ExperimentResult.jobId =
          resps.filterMap SubmitInfo.job := by
  obtain ⟨st', h1, h2, h3, h4, h5⟩ :=
    submitGo_clean resps st none herr hjob (Or.inl hne)
  have hids : st'.jobIds = resps.filterMap SubmitInfo.job := by
    rw [h2, h0]
    simp
  refine ⟨st', h1, hids, ?_⟩
  intro qr st2 log h
  have hres1 : st'.result = none := by rw [h3, hres]
  obtain ⟨st1, s1, hc, hp, hst2, hok⟩ :=
    resultFn_ok_inv api ws t st' qr st2 log hres1 h
  obtain ⟨g1, g2, g3, g4, g5, g6, extra, hx, hlen⟩ :=
    collectGo_ok_fields api ws t st'.jobIds st' ⟨0, 0, []⟩ st1 log hc
  obtain ⟨hgo, hqid⟩ := processResults_ok_inv st1 qr s1 hp
  obtain ⟨hmap, hlen2, hs⟩ :=
    processGo_ok_spec st1.jobIds (st1.shotsCfg.getD 1)
      st1.experimentResults 0 (.js .done) qr.results s1 hgo
  calc qr.results.map ExperimentResult.jobId
      = (st1.jobIds.drop 0).take st1.experimentResults.length := hmap
    _ = st'.jobIds.take st1.experimentResults.length := by
        rw [g1, List.drop_zero]
    _ = st'.jobIds.take st'.jobIds.length := by
        rw [hx, h4, hexp]
        simp [hlen]
    _ = st'.jobIds := List.take_length st'.jobIds
    _ = resps.filterMap SubmitInfo.job := hids

/-- Three clean submission responses, ids `id-a`, `id-b`, `id-c` in order. -/
def resps3 : List SubmitInfo :=
  [⟨none, some "id-a", some "queued", none⟩,
   ⟨none, some "id-b", some "queued", none⟩,
   ⟨none, some "id-c", some "running", none⟩]

/-- Witness for C8: three experiments submitted from a fresh job. -/
theorem c8_submission_order_witness :
    ∃ st', submit emptyJob resps3 = .ok st' ∧
      st'.jobIds = resps3.filterMap SubmitInfo.job ∧
      ∀ qr st2 log, resultFn api9 ws9 300 st' = .ok (qr, st2, log) →
        qr.results.map ExperimentResult.jobId =
          resps3.filterMap SubmitInfo.job :=
  c8_submission_order emptyJob resps3 api9 ws9 300 rfl rfl rfl
    (by decide) (by decide) (by decide)

/-- C9 (counterexample to the claim as stated).  On a concrete one-id job
whose first `status()` call succeeds, the second `status()` call fails with
`AttributeError` — raised by `res_resp.get('status', 'failed')` on the
`JobStatus` value that the terminal-status short-circuit of `_get_status`
appended to the never-cleared accumulator — and not with the `IndexError`
the claim predicts (line 347 is never reached). -/
theorem c9_counterexample :
    statusFn api9 ws9 300 j9 = .ok (.js .done, j9After, ⟨1, 1, []⟩) ∧
    statusFn api9 ws9 300 j9After = .error (.attributeError "get") ∧
    PyError.attributeError "get" ≠ PyError.indexError := by
  refine ⟨by decide, by decide, by decide⟩

/-- C9 (amended).  `status()` appends one entry to the
`_experiment_results` accumulator per held job id on every call without
clearing it; because a successful first call leaves the stored status
terminal, the second call's `_get_status` short-circuits return the raw
`JobStatus` value, and `_process_results` raises an uncaught
`AttributeError` calling `.get` on it (at line 337, before the indexing at
line 347 is reached), instead of returning a status. -/
theorem c9_second_status_attribute_error (api : String → Nat → JobPayload)
    (ws : String → Option JobPayload) (t : ℚ) (st : JobState)
    (s1 : StoredStatus) (st1 : JobState) (log : IOLog)
    (hids : st.jobIds ≠ [])
    (h1 : statusFn api ws t st = .ok (s1, st1, log)) :
    statusFn api ws t st1 = .error (.attributeError "get") := by
  obtain ⟨stc, qr, hc, hp, hst1⟩ := statusFn_ok_inv api ws t st s1 st1 log h1
  obtain ⟨g1, g2, g3, g4, g5, g6, extra, hx, hlen⟩ :=
    collectGo_ok_fields api ws t st.jobIds st ⟨0, 0, []⟩ stc log hc
  obtain ⟨hgo, hqid⟩ := processResults_ok_inv stc qr s1 hp
  obtain ⟨hmap, hlen2, hs⟩ :=
    processGo_ok_spec stc.jobIds (stc.shotsCfg.getD 1)
      stc.experimentResults 0 (.js .done) qr.results s1 hgo
  subst hst1
  have hfin : s1.isFinal = true := by
    rcases hs with rfl | rfl
    · rfl
    · rfl
  obtain ⟨j0, js, hjj⟩ : ∃ j0 js, stc.jobIds = j0 :: js := by
    rw [g1]
    cases hsj : st.jobIds with
    | nil => exact absurd hsj hids
    | cons a l => exact ⟨a, l, rfl⟩
  have hcol2 : collectEntries api ws t
      { stc with status := s1, result := some qr } =
      .ok ({ stc with
              status := s1, result := some qr
              experimentResults := stc.experimentResults ++
                stc.jobIds.map (fun _ => .statusVal s1) }, ⟨0, 0, []⟩) := by
    have := collectGo_final api ws t stc.jobIds
      { stc with status := s1, result := some qr } ⟨0, 0, []⟩ hfin
    exact this
  have hstep : processGo stc.jobIds (stc.shotsCfg.getD 1)
      (0 + stc.experimentResults.length)
      ((j0 :: js).map (fun _ => ExpEntry.statusVal s1)) s1 =
      .error (.attributeError "get") := by
    simp only [List.map_cons]
    conv_lhs => rw [processGo.eq_def]
    rfl
  have hproc2 : processResults
      ({ stc with
          status := s1, result := some qr
          experimentResults := stc.experimentResults ++
            stc.jobIds.map (fun _ => .statusVal s1) } : JobState) =
      .error (.attributeError "get") := by
    unfold processResults
    have happ := processGo_append stc.jobIds (stc.shotsCfg.getD 1)
      stc.experimentResults (stc.jobIds.map (fun _ => ExpEntry.statusVal s1))
      0 (.js .done)
    rw [show ({ stc with
          status := s1, result := some qr
          experimentResults := stc.experimentResults ++
            stc.jobIds.map (fun _ => .statusVal s1) } : JobState).jobIds
        = stc.jobIds from rfl] at *
    rw [show ({ stc with
          status := s1, result := some qr
          experimentResults := stc.experimentResults ++
            stc.jobIds.map (fun _ => .statusVal s1) } : JobState).shotsCfg
        = stc.shotsCfg from rfl] at *
    rw [show ({ stc with
          status := s1, result := some qr
          experimentResults := stc.experimentResults ++
            stc.jobIds.map (fun _ => .statusVal s1) } : JobState).experimentResults
        = stc.experimentResults ++
            stc.jobIds.map (fun _ => .statusVal s1) from rfl]
    rw [happ, hgo]
    rw [hjj] at hstep ⊢
    simp at hstep
    simp [hstep]
  unfold statusFn
  simp only [hcol2, hproc2]

/-- Witness for the amended C9 at the concrete one-id job. -/
theorem c9_second_status_attribute_error_witness :
    statusFn api9 ws9 300 j9After = .error (.attributeError "get") :=
  c9_second_status_attribute_error api9 ws9 300 j9 (.js .done) j9After
    ⟨1, 1, []⟩ (by decide) (by decide)

/-- C10.  In `_process_results`, a collected payload with no `'status'` key
is treated as `'failed'`: the experiment record is marked unsuccessful and
the overall job status becomes `ERROR`.  A payload whose status string is
not one of the five `ApiJobStatus` values instead makes the
`ApiJobStatus(status)` conversion raise a plain `ValueError`, which
`status()` and `result()` propagate unwrapped — it is not a job-level
`JobError`. -/
theorem c10_unknown_status :
    (∀ (st : JobState) (p : JobPayload) (res : List (List String))
        (counts : List (String × Nat)) (jid : String),
      st.experimentResults = [.payload p] → p.status = none →
      p.results = some res → processExperiment res = .ok counts →
      st.jobIds.get? 0 = some jid →
      processResults st =
        .ok ({ success := false, jobId := st.jobId
               results := [{ shots := st.shotsCfg.getD 1, success := false
                             counts := counts, jobId := jid }] },
          .js .error)) ∧
    (∀ (st : JobState) (p : JobPayload) (res : List (List String))
        (counts : List (String × Nat)) (s jid : String)
        (api : String → Nat → JobPayload) (ws : String → Option JobPayload),
      st.result = none → st.status.isFinal = false → st.jobIds = [jid] →
      st.experimentResults = [] →
      api jid 0 = p → api jid 1 = p → p.websocket = false →
      p.status = some s → ApiJobStatus.ofString s = none →
      p.results = some res → processExperiment res = .ok counts →
      statusFn api ws 300 st = .error (.valueError s) ∧
      resultFn api ws 300 st = .error (.valueError s) ∧
      ∀ m, PyError.valueError s ≠ PyError.jobError m) := by
  constructor
  · intro st p res counts jid hexp hstat hres hpe hjid
    have hone : processOne st.jobIds (st.shotsCfg.getD 1) 0 (.payload p) =
        .ok (true, { shots := st.shotsCfg.getD 1, success := false
                     counts := counts, jobId := jid }) := by
      unfold processOne
      simp only [hstat, hres, hpe, hjid, Option.getD_none]
      rfl
    unfold processResults
    rw [hexp]
    simp [processGo, hone]
  · intro st p res counts s jid api ws hcache hnotfin hjids hexp hapi0 hapi1
      hws hps hof hres hpe
    have hterm : pollTerminal.contains s = false := by
      cases hct : pollTerminal.contains s with
      | false => rfl
      | true =>
        exfalso
        have : s ∈ pollTerminal := by simpa using hct
        simp only [pollTerminal, List.mem_cons, List.not_mem_nil, or_false]
          at this
        rcases this with rfl | rfl | rfl <;>
          simp [ApiJobStatus.ofString] at hof
    have hmin : ratMin 1 ((300 : ℚ) / 1000) = 3 / 10 := by
      rw [ratMin, if_neg (by norm_num)]
      norm_num
    have hpoll : pollFrom (api jid) 300 p = .ok (p, [3 / 10]) := by
      unfold pollFrom
      rw [show ((300 : ℚ).num.toNat + 5) = ((300 : ℚ).num.toNat + 4) + 1
            from rfl,
        pollLoopGo_step_exhaust (api jid) ((300 : ℚ).num.toNat + 4) 1
          ((300 : ℚ) / 1000) (ratMin 1 ((300 : ℚ) / 1000)) p [] s hps hterm
          (by rw [hmin]; norm_num) (by rw [hmin]; norm_num)]
      rw [hapi1]
      simp [hmin]
    have hget : getStatusFull st.status (some jid) 300 (api jid) (ws jid) =
        .ok (.payload p, ⟨2, 0, [3 / 10]⟩) := by
      unfold getStatusFull
      rw [if_neg (by simp [hnotfin])]
      rw [hapi0]
      simp only [hws, Bool.false_eq_true, if_false, hpoll]
      rfl
    have hone2 : collectGo api ws 300 [jid] st ⟨0, 0, []⟩ =
        .ok ({ st with experimentResults :=
                 st.experimentResults ++ [.payload p] },
          IOLog.append ⟨0, 0, []⟩ ⟨2, 0, [3 / 10]⟩) := by
      unfold collectGo
      simp only [hget]
      unfold collectGo
      rfl
    have hcol : collectEntries api ws 300 st =
        .ok ({ st with experimentResults := [.payload p] }, ⟨2, 0, [3 / 10]⟩) := by
      unfold collectEntries
      rw [hjids, hone2, hexp]
      simp [IOLog.append]
      exact hjids
    have honeB : processOne st.jobIds (st.shotsCfg.getD 1) 0 (.payload p) =
        .error (.valueError s) := by
      unfold processOne
      simp [hres, hpe, hps, hof]
    have hprocB : processResults
        ({ st with experimentResults := [.payload p] } : JobState) =
        .error (.valueError s) := by
      unfold processResults
      simp [processGo, honeB]
    refine ⟨?_, ?_, ?_⟩
    · unfold statusFn
      simp only [hcol, hprocB]
    · unfold resultFn
      rw [hcache]
      simp only [hcol, hprocB]
    · intro m hcontra
      cases hcontra

/-- A payload with no `'status'` key. -/
def pNoStatus : JobPayload :=
  { status := none, results := some [["1"]], websocket := false }

/-- A one-id job whose accumulator already holds the status-less payload. -/
def jA : JobState :=
  { jobIds := ["jid-0"], status := .js .queued, apiErrorMsg := none
    result := none, experimentResults := [.payload pNoStatus]
    jobId := some "jid-0", shotsCfg := some 1 }

/-- A payload carrying the unknown status string `bogus`. -/
def pBogus : JobPayload :=
  { status := some "bogus", results := some [["1"]], websocket := false }

/-- A REST oracle that always answers with the `bogus` payload. -/
def apiB : String → Nat → JobPayload := fun _ _ => pBogus

/-- Witness for C10 at concrete inputs: the status-less payload yields an
`ERROR`-status result, and the `bogus` status string surfaces as a plain
`ValueError` from both `status()` and `result()`. -/
theorem c10_unknown_status_witness :
    processResults jA =
      .ok ({ success := false, jobId := jA.jobId
             results := [{ shots := jA.shotsCfg.getD 1, success := false
                           counts := [("0x1", 1)], jobId := "jid-0" }] },
        .js .error) ∧
    (statusFn apiB ws9 300 j9 = .error (.valueError "bogus") ∧
     resultFn apiB ws9 300 j9 = .error (.valueError "bogus") ∧
     ∀ m, PyError.valueError "bogus" ≠ PyError.jobError m) :=
  ⟨c10_unknown_status.1 jA pNoStatus [["1"]] [("0x1", 1)] "jid-0"
      rfl rfl rfl (by decide) rfl,
   c10_unknown_status.2 j9 pBogus [["1"]] [("0x1", 1)] "bogus" "jid-0"
      apiB ws9 rfl rfl rfl rfl rfl rfl rfl rfl rfl rfl (by decide)⟩

/-- C7.  The backend-status adapter defaults `pending_jobs` to 0 when the
key is absent, but when `'pending_jobs'` is present it subscripts the
mistyped key `'pending_obs'` and raises `KeyError` instead of returning the
clamped reported value. -/
theorem c7_pending_jobs_typo :
    backendStatus "H1" ⟨some "1.2", some "online", some 5, none⟩ =
      .error (.keyError "pending_obs") ∧
    backendStatus "H1" ⟨some "1.2", some "online", none, none⟩ =
      .ok ⟨"H1", "1.2", "online", true, 0⟩ := by
  refine ⟨rfl, rfl⟩

end QProvider
